import Mathlib

/-!
# AiRail — shallow embedding and verification

Shallow embedding of the AiRail railway simulation:

* `src/server/db.js` — the SQLite-backed graph store (stations, trains,
  tracks, events), modelled as a pure `DB` record with the same CRUD
  operations.  Station and train ids are produced by `AUTOINCREMENT`
  counters, modelled as `nextStationId` / `nextTrainId`; `getStations`
  does `ORDER BY id` and every insert gets a fresh maximal id, so the
  stations list is kept in insertion order.
* `src/public/js/game.js` (`simulationTick`) — the movement engine.
* `src/server/index.js` (`POST /api/train/:id/dispatch`) — dispatch.
* the agents module (`expandNetwork`, `getDailyBriefing`,
  `checkFleetBalance`) — the expansion orchestrator and fleet balancer.

Numbers: the JS code works with IEEE doubles; the embedding uses `ℚ`
(exact rational arithmetic).  The square root produced by
`Math.sqrt(dx*dx + dy*dy)` is not rational in general, so every operation
that consumes a Euclidean distance takes it as an explicit argument
`dist`, and each theorem constrains it by `0 ≤ dist` and
`dist ^ 2 = dx ^ 2 + dy ^ 2` — exactly the defining property of the
square root.  External AI oracles are modelled as environments: the
response to the i-th call of an oracle in a cycle is a function of `i`,
`Except String α` capturing "structured reply" versus "thrown error".
-/

/-- Train status: the `status` column of the `trains` table,
`'idle' | 'moving'`. -/
inductive TrainStatus where
  | idle
  | moving
deriving DecidableEq, Repr

/-- A row of the `stations` table (`id`, `name`, `x`, `y`).
`created_at` is never read by the modelled code and is omitted. -/
structure Station where
  id : Nat
  name : String
  x : ℚ
  y : ℚ
deriving DecidableEq, Repr

/-- A row of the `trains` table. -/
structure Train where
  id : Nat
  name : String
  current_station_id : Option Nat
  target_station_id : Option Nat
  x : ℚ
  y : ℚ
  speed_kmh : ℚ
  departure_time : Option Int
  status : TrainStatus
deriving DecidableEq, Repr

/-- A row of the `tracks` table: the two endpoint station ids. -/
structure Track where
  station_a_id : Nat
  station_b_id : Nat
deriving DecidableEq, Repr

/-- A row of the `events` table (append-only audit log). -/
structure Event where
  type : String
  message : String
deriving DecidableEq, Repr

/-- The persistent store of `src/server/db.js`.  `nextStationId` and
`nextTrainId` model the SQLite `AUTOINCREMENT` counters. -/
structure DB where
  stations : List Station
  trains : List Train
  tracks : List Track
  events : List Event
  nextStationId : Nat
  nextTrainId : Nat
deriving DecidableEq, Repr

namespace DB

/-- JS `db.getStation(id)`: `SELECT * FROM stations WHERE id = ?`. -/
def getStation (db : DB) (id : Nat) : Option Station :=
  db.stations.find? (fun st => st.id = id)

/-- JS `db.getTrain(id)`: `SELECT * FROM trains WHERE id = ?`. -/
def getTrain (db : DB) (id : Nat) : Option Train :=
  db.trains.find? (fun t => t.id = id)

/-- JS `db.addEvent(type, message)`. -/
def addEvent (db : DB) (type message : String) : DB :=
  { db with events := db.events ++ [⟨type, message⟩] }

/-- JS `db.addStation(name, x, y)`: inserts with a fresh autoincrement id and
returns `last_insert_rowid()`. -/
def addStation (db : DB) (name : String) (x y : ℚ) : DB × Nat :=
  ({ db with
      stations := db.stations ++ [⟨db.nextStationId, name, x, y⟩],
      nextStationId := db.nextStationId + 1 },
   db.nextStationId)

/-- JS `db.addTrack(a, b)`: inserts the pair unchecked. -/
def addTrack (db : DB) (a b : Nat) : DB :=
  { db with tracks := db.tracks ++ [⟨a, b⟩] }

/-- JS `db.addTrain(name, stationId)`: looks the station up for its
coordinates; if it does not exist, returns `null` without inserting.
`speedRoll` models `Math.floor(Math.random() * 60)` (so the inserted
speed is `100 + speedRoll`, the code's 100–160 km/h range). -/
def addTrain (db : DB) (name : String) (stationId : Nat) (speedRoll : Nat) :
    DB × Option Nat :=
  match db.getStation stationId with
  | none => (db, none)
  | some st =>
      ({ db with
          trains := db.trains ++
            [{ id := db.nextTrainId, name := name,
               current_station_id := some stationId,
               target_station_id := none,
               x := st.x, y := st.y,
               speed_kmh := 100 + (speedRoll : ℚ),
               departure_time := none,
               status := .idle }],
          nextTrainId := db.nextTrainId + 1 },
       some db.nextTrainId)

/-- Apply `f` to the train with id `id` (the `UPDATE trains ... WHERE
id = ?` of `db.updateTrain`). -/
def updateTrain (db : DB) (id : Nat) (f : Train → Train) : DB :=
  { db with trains := db.trains.map (fun t => if t.id = id then f t else t) }

/-- Well-formedness of the store as SQLite maintains it: stations are
listed in strictly increasing id order (`ORDER BY id`), and every station
id is below the autoincrement counter. -/
def WF (db : DB) : Prop :=
  db.stations.Chain' (fun a b => a.id < b.id) ∧
    ∀ st ∈ db.stations, st.id < db.nextStationId

instance (db : DB) : Decidable db.WF :=
  inferInstanceAs (Decidable
    (db.stations.Chain' (fun (a b : Station) => a.id < b.id) ∧
      ∀ st ∈ db.stations, st.id < db.nextStationId))

end DB

/-- The seeded initial database of `initDatabase` / `resetDatabase`: two
stations 600 px apart, one track between them, one idle train at station 1,
one system event. -/
def seedDB : DB :=
  { stations := [⟨1, "Central Junction", 50, 300⟩,
                 ⟨2, "Northfield Terminal", 650, 300⟩],
    trains := [{ id := 1, name := "Express-01",
                 current_station_id := some 1, target_station_id := none,
                 x := 50, y := 300, speed_kmh := 80,
                 departure_time := none, status := .idle }],
    tracks := [⟨1, 2⟩],
    events := [⟨"SYSTEM", "Railway simulation initialized. Two stations online."⟩],
    nextStationId := 3,
    nextTrainId := 2 }

/-! ## Movement engine (`simulationTick` in `src/public/js/game.js`) -/

/-- JS `const PIXELS_PER_KM = 4`. -/
def PIXELS_PER_KM : ℚ := 4

/-- JS `const SIMULATION_SPEED = 60`. -/
def SIMULATION_SPEED : ℚ := 60

/-- JS `const TICK_RATE = 50` (ms). -/
def TICK_RATE : ℚ := 50

/-- JS `(TICK_RATE / 1000) * SIMULATION_SPEED` — simulated seconds per tick. -/
def simSecondsPerTick : ℚ := TICK_RATE / 1000 * SIMULATION_SPEED

/-- JS `kmPerTick = speed_kmh * (simSecondsPerTick / 3600)`. -/
def kmPerTick (speed : ℚ) : ℚ := speed * (simSecondsPerTick / 3600)

/-- JS `pixelsPerTick = kmPerTick * PIXELS_PER_KM`. -/
def pixelsPerTick (speed : ℚ) : ℚ := kmPerTick speed * PIXELS_PER_KM

/-- One `simulationTick` step for a single train, combined with the
persistence callback `POST /api/train/:id/update` it issues on arrival
(which also nulls `target_station_id` and `departure_time`).  `dist` is
the caller-supplied value of `Math.sqrt(dx*dx + dy*dy)`; theorems
constrain it by `0 ≤ dist ∧ dist ^ 2 = dx ^ 2 + dy ^ 2`.  Trains that are
not `moving`, have no target, or whose target id is not in `stations`
are skipped (`continue`). -/
def tickTrain (stations : List Station) (train : Train) (dist : ℚ) : Train :=
  match train.status, train.target_station_id with
  | .moving, some tid =>
      match stations.find? (fun s => s.id = tid) with
      | none => train
      | some target =>
          if dist ≤ pixelsPerTick train.speed_kmh then
            { train with
                x := target.x, y := target.y,
                status := .idle,
                current_station_id := some target.id,
                target_station_id := none,
                departure_time := none }
          else
            { train with
                x := train.x + (target.x - train.x) / dist * pixelsPerTick train.speed_kmh,
                y := train.y + (target.y - train.y) / dist * pixelsPerTick train.speed_kmh }
  | _, _ => train

/-! ## Dispatch (`POST /api/train/:id/dispatch` in `src/server/index.js`) -/

/-- JavaScript `Math.round`: round half toward positive infinity,
`Math.round x = ⌊x + 1/2⌋`. -/
def jsRound (q : ℚ) : Int := ⌊q + 1 / 2⌋

/-- The HTTP response of the dispatch route: an error status with a
message, or the success payload `{ success, distanceKm, etaMinutes }`. -/
inductive DispatchResult where
  | err (status : Nat) (msg : String)
  | ok (distanceKm : ℚ) (etaMinutes : Int)
deriving DecidableEq, Repr

/-- Whether a `DispatchResult` is an error response. -/
def DispatchResult.isErr : DispatchResult → Bool
  | .err _ _ => true
  | .ok _ _ => false

/-- The dispatch route.  Validations in source order: unknown train
(404), unknown target station (404), target equal to the train's current
station (400).  On success it computes the reported distance and ETA,
sets `target_station_id`, `departure_time`, `status = 'moving'` via
`updateTrain`, and records a `DISPATCH` event.  `dist` is the
caller-supplied `Math.sqrt(dx*dx + dy*dy)` (`dx = target.x - train.x`,
`dy = target.y - train.y`); `now` models `new Date()`. -/
def dispatch (db : DB) (trainId targetStationId : Nat) (dist : ℚ) (now : Int) :
    DB × DispatchResult :=
  match db.getTrain trainId with
  | none => (db, .err 404 ("Train " ++ toString trainId ++ " not found"))
  | some train =>
      match db.getStation targetStationId with
      | none => (db, .err 404 ("Station " ++ toString targetStationId ++ " not found"))
      | some targetStation =>
          if train.current_station_id = some targetStationId then
            (db, .err 400 "Train is already at the target station")
          else
            let distanceKm := dist / 4
            let timeHours := distanceKm / train.speed_kmh
            let timeMinutes := jsRound (timeHours * 60)
            let db1 := db.updateTrain trainId (fun t =>
              { t with target_station_id := some targetStationId,
                       departure_time := some now,
                       status := .moving })
            let db2 := db1.addEvent "DISPATCH"
              ("🚂 " ++ train.name ++ " dispatched to " ++ targetStation.name)
            (db2, .ok distanceKm timeMinutes)

/-! ## Orchestrator (the agents module: `getDailyBriefing`,
`proposeBuild`/`verifyBuild` loop, `expandNetwork`, `checkFleetBalance`) -/

/-- The Commander's directive `{ strategy, cityName, thoughtSignature }`. -/
structure Plan where
  strategy : String
  cityName : String
  thoughtSignature : String
deriving DecidableEq, Repr

/-- A Proposal-Oracle candidate `{ name, x, y, connectToId,
thoughtSignature }`.  `connectToId` models `Number(proposal.connectToId)`:
`none` when that conversion yields `NaN` (field missing or non-numeric,
e.g. `"abc"`), `some q` for the numeric value otherwise. -/
structure Proposal where
  name : String
  x : ℚ
  y : ℚ
  connectToId : Option ℚ
  thoughtSignature : String
deriving DecidableEq, Repr

/-- A Verification-Oracle judgment `{ valid, feedback }`. -/
structure Verification where
  valid : Bool
  feedback : String
deriving DecidableEq, Repr

/-- Module-level mutable state of the agents module: the cached
`dailyPlan` with its `lastBriefingTime`, and the throttle timestamp
`lastWorkerTime` (all times in ms). -/
structure AgentState where
  dailyPlan : Option Plan
  lastBriefingTime : Int
  lastWorkerTime : Int
deriving DecidableEq, Repr

/-- JS `const BRIEFING_INTERVAL = 2 * 60 * 60 * 1000` (ms). -/
def BRIEFING_INTERVAL : Int := 2 * 60 * 60 * 1000

/-- The result object of `expandNetwork`: success carries
`{ success: true, stationId, ...proposal }`, failure carries
`{ success: false, error }`. -/
structure ExpandResult where
  success : Bool
  error : Option String
  stationId : Option Nat
  proposal : Option Proposal
deriving DecidableEq, Repr

/-- The failure object `\x7b success: false, error: msg }`. -/
def failResult (msg : String) : ExpandResult :=
  { success := false, error := some msg, stationId := none, proposal := none }

/-- JS `getDailyBriefing()`: returns the cached plan while within
`BRIEFING_INTERVAL`; otherwise consults the Strategy Oracle
(`planOracle`, `.error` = thrown failure).  On oracle success it caches
the plan, stamps `lastBriefingTime`, and records the two audit events; on
oracle failure it returns the built-in safe default without touching the
cache.  The fourth component counts Strategy-Oracle calls made. -/
def getDailyBriefing (planOracle : Except String Plan) (s : AgentState)
    (db : DB) (now : Int) : Plan × AgentState × DB × Nat :=
  match s.dailyPlan with
  | some p =>
      if now - s.lastBriefingTime < BRIEFING_INTERVAL then (p, s, db, 0)
      else
        match planOracle with
        | .ok q =>
            (q, { s with dailyPlan := some q, lastBriefingTime := now },
             (db.addEvent "AI_EXPANSION" ("[THOUGHT] " ++ q.thoughtSignature)).addEvent
               "COMMANDER" ("📜 STRATEGY: " ++ q.strategy), 1)
        | .error _ =>
            (⟨"Maintain system stability.", "Central", "Safety-first protocol engaged."⟩,
             s, db, 1)
  | none =>
      match planOracle with
      | .ok q =>
          (q, { s with dailyPlan := some q, lastBriefingTime := now },
           (db.addEvent "AI_EXPANSION" ("[THOUGHT] " ++ q.thoughtSignature)).addEvent
             "COMMANDER" ("📜 STRATEGY: " ++ q.strategy), 1)
      | .error _ =>
          (⟨"Maintain system stability.", "Central", "Safety-first protocol engaged."⟩,
           s, db, 1)

/-- Outcome of the PROPOSE/VERIFY orchestration loop, carrying the store
(with the audit events appended so far) and the number of Proposal- and
Verification-Oracle calls made. -/
inductive LoopRes where
  | accepted (p : Proposal) (db : DB) (proposeCalls verifyCalls : Nat)
  | oracleErr (msg : String) (db : DB) (proposeCalls verifyCalls : Nat)
  | noConsensus (db : DB) (proposeCalls verifyCalls : Nat)
deriving DecidableEq, Repr

/-- The orchestration loop `while (!verification.valid && attempts < maxAttempts)` of
`expandNetwork`.  `propose i` / `verify i` are the environment's replies
to the i-th Proposal- resp. Verification-Oracle call of this cycle
(`.error` = the awaited call threw, caught by the outer `try`).  `calls`
is the number of propose calls already made, `remaining` the attempts
left out of `maxAttempts = 3`. -/
def proposeVerifyLoop (propose : Nat → Except String Proposal)
    (verify : Nat → Except String Verification) :
    (calls remaining : Nat) → DB → LoopRes
  | calls, 0, db => .noConsensus db calls calls
  | calls, remaining + 1, db =>
      match propose calls with
      | .error m => .oracleErr m db (calls + 1) calls
      | .ok prop =>
          let db1 := db.addEvent "AI_EXPANSION" ("[THOUGHT] " ++ prop.thoughtSignature)
          match verify calls with
          | .error m => .oracleErr m db1 (calls + 1) (calls + 1)
          | .ok v =>
              if v.valid then .accepted prop db1 (calls + 1) (calls + 1)
              else
                proposeVerifyLoop propose verify (calls + 1) remaining
                  (db1.addEvent "SYSTEM"
                    ("🔄 SELF-CORRECT: Proposal rejected by Surveyor. Feedback: " ++
                      v.feedback ++ ". Retrying..."))

/-- The EXECUTE-phase connection-target resolution: `Number(connectToId)`
must be non-`NaN` and match a station of `validStations` (the list
re-read AFTER the new station was inserted); otherwise fall back to
`validStations[validStations.length - 2]` when at least two stations
exist, else `validStations[0]`.  A default station stands in for the
out-of-bounds access on an empty list, which cannot occur after an
insert. -/
def resolveConnection (connectToId : Option ℚ) (validStations : List Station) : Nat :=
  let fallback :=
    if validStations.length ≥ 2 then
      ((validStations.get? (validStations.length - 2)).getD ⟨0, "", 0, 0⟩).id
    else ((validStations.get? 0).getD ⟨0, "", 0, 0⟩).id
  match connectToId with
  | none => fallback
  | some c =>
      match validStations.find? (fun st => (st.id : ℚ) = c) with
      | some st => st.id
      | none => fallback

/-- JS `checkFleetBalance()`: if `stations.length > trains.length * 3`,
spawn one idle train at `stations[Math.floor(Math.random() *
stations.length)]` (the draw modelled by `randIdx`) named `Express-NN`
(`String(trains.length + 1).padStart(2, '0')`), with speed
`100 + Math.floor(Math.random() * 60)` (modelled by `speedRoll`), and
record a SYSTEM event; otherwise do nothing. -/
def checkFleetBalance (randIdx speedRoll : Nat) (db : DB) : DB :=
  if db.stations.length > db.trains.length * 3 then
    match db.stations.get? randIdx with
    | none => db
    | some startStation =>
        let n := db.trains.length + 1
        let trainName := "Express-" ++
          (if n < 10 then "0" ++ toString n else toString n)
        match db.addTrain trainName startStation.id speedRoll with
        | (db1, _) =>
            db1.addEvent "SYSTEM" ("🚄 New Rolling Stock Acquired: " ++ trainName)
  else db

/-- The full outcome of one `expandNetwork()` invocation: the returned
result object, the module state and store afterwards, and how many
Strategy- / Proposal- / Verification-Oracle calls were issued. -/
structure CycleOutcome where
  result : ExpandResult
  state : AgentState
  db : DB
  planCalls : Nat
  proposeCalls : Nat
  verifyCalls : Nat
deriving DecidableEq, Repr

/-- JS `expandNetwork()`.  Phases: throttle check (`now - lastWorkerTime <
60000` rejects, and only past it is `lastWorkerTime = now` stamped);
PLAN via `getDailyBriefing`; the PROPOSE/VERIFY loop (max 3 attempts);
on no consensus the thrown error is caught by the outer `try`, which
records a SYSTEM event and returns `{ success: false, error }`; EXECUTE
inserts the station, re-reads the stations, resolves the connection id,
inserts the track and the CONSTRUCTION event; REBALANCE runs
`checkFleetBalance` (its `Math.random()` draws modelled by `randIdx`,
`speedRoll`).  Success returns `{ success: true, stationId,
...proposal }`. -/
def expandNetwork (planOracle : Except String Plan)
    (propose : Nat → Except String Proposal)
    (verify : Nat → Except String Verification)
    (randIdx speedRoll : Nat) (s : AgentState) (db : DB) (now : Int) :
    CycleOutcome :=
  if now - s.lastWorkerTime < 60000 then
    { result := failResult "Marathon Agent is cooling down between cycles.",
      state := s, db := db, planCalls := 0, proposeCalls := 0, verifyCalls := 0 }
  else
    let s1 : AgentState := { s with lastWorkerTime := now }
    let gdb := getDailyBriefing planOracle s1 db now
    let s2 := gdb.2.1
    let db1 := gdb.2.2.1
    let planCalls := gdb.2.2.2
    match proposeVerifyLoop propose verify 0 3 db1 with
    | .oracleErr m db2 pc vc =>
        { result := failResult m, state := s2,
          db := db2.addEvent "SYSTEM" ("⚠️ SYSTEM ERROR: " ++ m),
          planCalls := planCalls, proposeCalls := pc, verifyCalls := vc }
    | .noConsensus db2 pc vc =>
        { result := failResult "Could not reach verified consensus after multiple attempts.",
          state := s2,
          db := db2.addEvent "SYSTEM"
            ("⚠️ SYSTEM ERROR: Could not reach verified consensus after multiple attempts."),
          planCalls := planCalls, proposeCalls := pc, verifyCalls := vc }
    | .accepted prop db2 pc vc =>
        let st := db2.addStation prop.name prop.x prop.y
        let db3 := st.1
        let newId := st.2
        let validStations := db3.stations
        let connectionId := resolveConnection prop.connectToId validStations
        let db4 := db3.addTrack connectionId newId
        let db5 := db4.addEvent "CONSTRUCTION"
          ("🏗️ Built " ++ prop.name ++ " connected to Hub #" ++ toString connectionId)
        let db6 := checkFleetBalance randIdx speedRoll db5
        { result := { success := true, error := none,
                      stationId := some newId, proposal := some prop },
          state := s2, db := db6,
          planCalls := planCalls, proposeCalls := pc, verifyCalls := vc }

/-! ## Shared concrete fixtures -/

/-- A three-station store: the seed plus one station at (350, 700),
which lies exactly 500 px from the seed train position (50, 300). -/
def dbThree : DB := (seedDB.addStation "Eastgate Yard" 350 700).1

/-- An agent state whose directive cache was stamped at t = 60000 ms and
whose last non-throttled cycle started at t = 0 ms. -/
def sCached : AgentState :=
  { dailyPlan := some ⟨"Urban Consolidation", "Central", "steady growth"⟩,
    lastBriefingTime := 60000,
    lastWorkerTime := 0 }

/-- A candidate whose `connectToId` converted to `NaN` (the spec's
example sends the string `"abc"`). -/
def propNaN : Proposal := ⟨"NewSt", 10, 20, none, "attach near tail"⟩

/-- A Verification-Oracle environment that always accepts. -/
def alwaysValid : Nat → Except String Verification :=
  fun _ => .ok ⟨true, "pass"⟩

/-- A moving train 1/5 px short of Northfield Terminal (650, 300), used
to exercise the arrival rule concretely. -/
def trainNearArrival : Train :=
  { id := 1, name := "Express-01", current_station_id := some 1,
    target_station_id := some 2, x := 650 - 1 / 5, y := 300,
    speed_kmh := 80, departure_time := some 0, status := .moving }

/-- A ten-station, three-train store: 10 > 3 × 3, so the Fleet Balancer
must spawn. -/
def dbTenThree : DB :=
  { stations := [⟨1, "S1", 0, 0⟩, ⟨2, "S2", 10, 0⟩, ⟨3, "S3", 20, 0⟩,
      ⟨4, "S4", 30, 0⟩, ⟨5, "S5", 40, 0⟩, ⟨6, "S6", 50, 0⟩,
      ⟨7, "S7", 60, 0⟩, ⟨8, "S8", 70, 0⟩, ⟨9, "S9", 80, 0⟩,
      ⟨10, "S10", 90, 0⟩],
    trains := [⟨1, "Express-01", some 1, none, 0, 0, 80, none, .idle⟩,
      ⟨2, "Express-02", some 2, none, 10, 0, 80, none, .idle⟩,
      ⟨3, "Express-03", some 3, none, 20, 0, 80, none, .idle⟩],
    tracks := [], events := [], nextStationId := 11, nextTrainId := 4 }

/-- The same store with only nine stations: 9 ≯ 3 × 3, so the Fleet
Balancer must not spawn. -/
def dbNineThree : DB :=
  { dbTenThree with
      stations := dbTenThree.stations.take 9, nextStationId := 10 }

/-! ## Helper lemmas -/

@[simp]
theorem DB.stations_addEvent (db : DB) (t m : String) :
    (db.addEvent t m).stations = db.stations := rfl

@[simp]
theorem DB.tracks_addEvent (db : DB) (t m : String) :
    (db.addEvent t m).tracks = db.tracks := rfl

@[simp]
theorem DB.trains_addEvent (db : DB) (t m : String) :
    (db.addEvent t m).trains = db.trains := rfl

@[simp]
theorem DB.nextStationId_addEvent (db : DB) (t m : String) :
    (db.addEvent t m).nextStationId = db.nextStationId := rfl

@[simp]
theorem DB.getTrain_addEvent (db : DB) (t m : String) (id : Nat) :
    (db.addEvent t m).getTrain id = db.getTrain id := rfl

/-- The store returned by `getDailyBriefing` differs from the input store
only by audit events. -/
theorem getDailyBriefing_db (po : Except String Plan) (s : AgentState)
    (db : DB) (now : Int) :
    ((getDailyBriefing po s db now).2.2.1).stations = db.stations ∧
    ((getDailyBriefing po s db now).2.2.1).tracks = db.tracks ∧
    ((getDailyBriefing po s db now).2.2.1).trains = db.trains ∧
    ((getDailyBriefing po s db now).2.2.1).nextStationId = db.nextStationId := by
  unfold getDailyBriefing
  rcases s.dailyPlan with _ | p <;> rcases po with m | q <;> simp
  all_goals split_ifs <;> simp

/-- `getDailyBriefing` never touches the throttle timestamp. -/
theorem getDailyBriefing_lastWorkerTime (po : Except String Plan)
    (s : AgentState) (db : DB) (now : Int) :
    ((getDailyBriefing po s db now).2.1).lastWorkerTime = s.lastWorkerTime := by
  unfold getDailyBriefing
  rcases s.dailyPlan with _ | p <;> rcases po with m | q <;> simp
  all_goals split_ifs <;> simp

/-- If every Proposal-Oracle call succeeds and every Verification-Oracle
call returns `valid: false`, the loop exhausts its remaining attempts,
ends in `noConsensus`, makes one propose and one verify call per attempt,
and changes the store only by audit events. -/
theorem proposeVerifyLoop_allInvalid (propose : Nat → Except String Proposal)
    (verify : Nat → Except String Verification)
    (hp : ∀ i, ∃ p, propose i = .ok p)
    (hv : ∀ i, ∃ fb, verify i = .ok ⟨false, fb⟩) :
    ∀ (remaining calls : Nat) (db : DB), ∃ db' : DB,
      proposeVerifyLoop propose verify calls remaining db =
        .noConsensus db' (calls + remaining) (calls + remaining) ∧
      db'.stations = db.stations ∧ db'.tracks = db.tracks ∧
        db'.trains = db.trains := by
  intro remaining
  induction remaining with
  | zero => exact fun calls db => ⟨db, rfl, rfl, rfl, rfl⟩
  | succ n ih =>
      intro calls db
      obtain ⟨p, hp'⟩ := hp calls
      obtain ⟨fb, hv'⟩ := hv calls
      obtain ⟨db', heq, h1, h2, h3⟩ := ih (calls + 1)
        (((db.addEvent "AI_EXPANSION" ("[THOUGHT] " ++ p.thoughtSignature)).addEvent
          "SYSTEM" ("🔄 SELF-CORRECT: Proposal rejected by Surveyor. Feedback: " ++
            fb ++ ". Retrying...")))
      refine ⟨db', ?_, by simpa using h1, by simpa using h2, by simpa using h3⟩
      rw [proposeVerifyLoop, hp', hv']
      simpa [Nat.add_assoc, Nat.add_comm, Nat.add_left_comm] using heq

/-- C2: If the Verification Oracle returns `valid=false` on every call
(and the Proposal Oracle keeps answering), a non-throttled
`runExpansionCycle()` (`expandNetwork`) makes exactly 3 proposal
attempts, then fails with the ConsensusError message
"Could not reach verified consensus after multiple attempts.", and
mutates no state beyond audit events: no node, edge, or mover is
created. -/
theorem expandNetwork_allInvalid_consensusError
    (planOracle : Except String Plan)
    (propose : Nat → Except String Proposal)
    (verify : Nat → Except String Verification)
    (randIdx speedRoll : Nat) (s : AgentState) (db : DB) (now : Int)
    (hthr : ¬ now - s.lastWorkerTime < 60000)
    (hp : ∀ i, ∃ p, propose i = .ok p)
    (hv : ∀ i, ∃ fb, verify i = .ok ⟨false, fb⟩) :
    (expandNetwork planOracle propose verify randIdx speedRoll s db now).proposeCalls = 3 ∧
    (expandNetwork planOracle propose verify randIdx speedRoll s db now).result =
      failResult "Could not reach verified consensus after multiple attempts." ∧
    (expandNetwork planOracle propose verify randIdx speedRoll s db now).db.stations =
      db.stations ∧
    (expandNetwork planOracle propose verify randIdx speedRoll s db now).db.tracks =
      db.tracks ∧
    (expandNetwork planOracle propose verify randIdx speedRoll s db now).db.trains =
      db.trains := by
  obtain ⟨hs, ht, htr, _⟩ :=
    getDailyBriefing_db planOracle { s with lastWorkerTime := now } db now
  obtain ⟨db', hloop, h1, h2, h3⟩ := proposeVerifyLoop_allInvalid propose verify hp hv 3 0
    ((getDailyBriefing planOracle { s with lastWorkerTime := now } db now).2.2.1)
  unfold expandNetwork
  rw [if_neg hthr]
  simp only [hloop]
  refine ⟨by trivial, by trivial, ?_, ?_, ?_⟩
  · simpa using h1.trans hs
  · simpa using h2.trans ht
  · simpa using h3.trans htr

/-- Witness for C2: at the seed store with a cached directive, a call at
t = 60000 ms (throttle stamp 0) under an always-rejecting Verification
Oracle makes exactly 3 proposal attempts, returns the ConsensusError
message, and creates no station, track, or train. -/
theorem expandNetwork_allInvalid_consensusError_witness :
    (¬ (60000 : Int) - sCached.lastWorkerTime < 60000) ∧
    ((expandNetwork (.error "offline") (fun _ => .ok propNaN)
        (fun _ => .ok ⟨false, "rejected"⟩) 0 0 sCached seedDB 60000).proposeCalls = 3 ∧
      (expandNetwork (.error "offline") (fun _ => .ok propNaN)
        (fun _ => .ok ⟨false, "rejected"⟩) 0 0 sCached seedDB 60000).result =
        failResult "Could not reach verified consensus after multiple attempts." ∧
      (expandNetwork (.error "offline") (fun _ => .ok propNaN)
        (fun _ => .ok ⟨false, "rejected"⟩) 0 0 sCached seedDB 60000).db.stations =
        seedDB.stations ∧
      (expandNetwork (.error "offline") (fun _ => .ok propNaN)
        (fun _ => .ok ⟨false, "rejected"⟩) 0 0 sCached seedDB 60000).db.tracks =
        seedDB.tracks ∧
      (expandNetwork (.error "offline") (fun _ => .ok propNaN)
        (fun _ => .ok ⟨false, "rejected"⟩) 0 0 sCached seedDB 60000).db.trains =
        seedDB.trains) :=
  ⟨by decide,
   expandNetwork_allInvalid_consensusError (.error "offline") (fun _ => .ok propNaN)
     (fun _ => .ok ⟨false, "rejected"⟩) 0 0 sCached seedDB 60000 (by decide)
     (fun _ => ⟨propNaN, rfl⟩) (fun _ => ⟨"rejected", rfl⟩)⟩

/-- C3 counterexample: with the throttle stamp at 0 ms, an invocation at
t = 59000 ms is throttled and does NOT update the throttle timestamp
(it stays 0, not 59000), so a further invocation at t = 61000 ms — only
2000 ms after the previous invocation attempt — is not throttled and
drives the full 3-attempt oracle loop.  The claim that the timestamp is
updated at invocation start regardless of outcome, making the cooldown
run from the previous invocation attempt, is false. -/
theorem expandNetwork_throttledStamp_cex :
    (expandNetwork (.error "offline") (fun _ => .error "offline")
        (fun _ => .error "offline") 0 0 sCached seedDB 59000).state.lastWorkerTime = 0 ∧
    (0 : Int) ≠ 59000 ∧
    (expandNetwork (.error "offline") (fun _ => .ok propNaN)
        (fun _ => .ok ⟨false, "rejected"⟩) 0 0
        (expandNetwork (.error "offline") (fun _ => .error "offline")
          (fun _ => .error "offline") 0 0 sCached seedDB 59000).state
        seedDB 61000).proposeCalls = 3 := by
  refine ⟨rfl, by decide, rfl⟩

/-- C3 (amended): an invocation inside the cooldown window
(`now - lastWorkerTime < 60000` ms) returns the ThrottleError outcome,
invokes no oracle, and leaves both the store and the module state —
including the throttle timestamp — unchanged; an invocation that passes
the throttle check stamps `lastWorkerTime := now` regardless of its
subsequent outcome, so the cooldown is measured from the previous
invocation that passed the throttle check. -/
theorem expandNetwork_throttle (planOracle : Except String Plan)
    (propose : Nat → Except String Proposal)
    (verify : Nat → Except String Verification)
    (randIdx speedRoll : Nat) (s : AgentState) (db : DB) (now : Int) :
    (now - s.lastWorkerTime < 60000 →
      expandNetwork planOracle propose verify randIdx speedRoll s db now =
        { result := failResult "Marathon Agent is cooling down between cycles.",
          state := s, db := db, planCalls := 0, proposeCalls := 0,
          verifyCalls := 0 }) ∧
    (¬ now - s.lastWorkerTime < 60000 →
      (expandNetwork planOracle propose verify randIdx speedRoll
        s db now).state.lastWorkerTime = now) := by
  constructor
  · intro h
    unfold expandNetwork
    rw [if_pos h]
  · intro h
    unfold expandNetwork
    rw [if_neg h]
    rcases hloop : proposeVerifyLoop propose verify 0 3
        ((getDailyBriefing planOracle { s with lastWorkerTime := now } db now).2.2.1) with
      ⟨p, db2, pc, vc⟩ | ⟨m, db2, pc, vc⟩ | ⟨db2, pc, vc⟩ <;>
    simp only [hloop] <;>
    simpa using getDailyBriefing_lastWorkerTime planOracle
      { s with lastWorkerTime := now } db now

/-- Witness for the amended C3: at t = 59000 ms the cycle is throttled
with nothing invoked or changed; at t = 60000 ms it passes the throttle
check and stamps the timestamp even though the cycle then fails. -/
theorem expandNetwork_throttle_witness :
    ((59000 : Int) - sCached.lastWorkerTime < 60000 ∧
      expandNetwork (.error "offline") (fun _ => .error "offline")
          (fun _ => .error "offline") 0 0 sCached seedDB 59000 =
        { result := failResult "Marathon Agent is cooling down between cycles.",
          state := sCached, db := seedDB, planCalls := 0, proposeCalls := 0,
          verifyCalls := 0 }) ∧
    (¬ (60000 : Int) - sCached.lastWorkerTime < 60000 ∧
      (expandNetwork (.error "offline") (fun _ => .ok propNaN)
        (fun _ => .ok ⟨false, "rejected"⟩) 0 0 sCached seedDB
        60000).state.lastWorkerTime = 60000) :=
  ⟨⟨by decide,
    (expandNetwork_throttle (.error "offline") (fun _ => .error "offline")
      (fun _ => .error "offline") 0 0 sCached seedDB 59000).1 (by decide)⟩,
   ⟨by decide,
    (expandNetwork_throttle (.error "offline") (fun _ => .ok propNaN)
      (fun _ => .ok ⟨false, "rejected"⟩) 0 0 sCached seedDB 60000).2 (by decide)⟩⟩

/-- Reduction of `tickTrain` for a moving train whose target resolves. -/
theorem tickTrain_eq_of (stations : List Station) (train : Train) (dist : ℚ)
    (tid : Nat) (target : Station)
    (hstatus : train.status = .moving)
    (htid : train.target_station_id = some tid)
    (hfind : stations.find? (fun s => s.id = tid) = some target) :
    tickTrain stations train dist =
      if dist ≤ pixelsPerTick train.speed_kmh then
        { train with
            x := target.x, y := target.y,
            status := .idle,
            current_station_id := some target.id,
            target_station_id := none,
            departure_time := none }
      else
        { train with
            x := train.x + (target.x - train.x) / dist * pixelsPerTick train.speed_kmh,
            y := train.y + (target.y - train.y) / dist * pixelsPerTick train.speed_kmh } := by
  unfold tickTrain
  rw [hstatus, htid]
  simp only [hfind]

/-- The per-tick travel distance is `speed / 300` pixels. -/
theorem pixelsPerTick_eq (speed : ℚ) : pixelsPerTick speed = speed / 300 := by
  unfold pixelsPerTick kmPerTick simSecondsPerTick TICK_RATE SIMULATION_SPEED PIXELS_PER_KM
  ring

/-- C4: for a mover with status `moving` and an existing target, a
Movement Engine tick leaves the position on the segment between the
pre-tick position and the target's coordinate (never overshooting), and
whenever the per-tick travel distance is at least the remaining distance
(including zero remaining distance) the post-tick position equals the
target's coordinate exactly, status becomes `idle`, the current node is
set to the target, and the target is cleared. -/
theorem tickTrain_on_segment (stations : List Station) (train : Train)
    (dist : ℚ) (tid : Nat) (target : Station)
    (hstatus : train.status = .moving)
    (htid : train.target_station_id = some tid)
    (hfind : stations.find? (fun s => s.id = tid) = some target)
    (hdist : 0 ≤ dist ∧
      dist ^ 2 = (target.x - train.x) ^ 2 + (target.y - train.y) ^ 2)
    (hspeed : 0 ≤ train.speed_kmh) :
    (∃ c : ℚ, 0 ≤ c ∧ c ≤ 1 ∧
      (tickTrain stations train dist).x = train.x + c * (target.x - train.x) ∧
      (tickTrain stations train dist).y = train.y + c * (target.y - train.y)) ∧
    (dist ≤ pixelsPerTick train.speed_kmh →
      (tickTrain stations train dist).x = target.x ∧
      (tickTrain stations train dist).y = target.y ∧
      (tickTrain stations train dist).status = .idle ∧
      (tickTrain stations train dist).current_station_id = some target.id ∧
      (tickTrain stations train dist).target_station_id = none) := by
  have hk : 0 ≤ pixelsPerTick train.speed_kmh := by
    rw [pixelsPerTick_eq]
    positivity
  rw [tickTrain_eq_of stations train dist tid target hstatus htid hfind]
  by_cases harr : dist ≤ pixelsPerTick train.speed_kmh
  · rw [if_pos harr]
    exact ⟨⟨1, by norm_num, by norm_num, by simp, by simp⟩,
      fun _ => ⟨rfl, rfl, rfl, rfl, rfl⟩⟩
  · rw [if_neg harr]
    push_neg at harr
    have hdpos : 0 < dist := lt_of_le_of_lt hk harr
    refine ⟨⟨pixelsPerTick train.speed_kmh / dist,
      div_nonneg hk hdpos.le, by rw [div_le_one hdpos]; exact harr.le,
      ?_, ?_⟩, fun hc => absurd hc (not_le.mpr harr)⟩
    · show train.x + (target.x - train.x) / dist * pixelsPerTick train.speed_kmh =
        train.x + pixelsPerTick train.speed_kmh / dist * (target.x - train.x)
      ring
    · show train.y + (target.y - train.y) / dist * pixelsPerTick train.speed_kmh =
        train.y + pixelsPerTick train.speed_kmh / dist * (target.y - train.y)
      ring


/-- Witness for C4: the near-arrival train with remaining distance
1/5 px ≤ per-tick distance 80/300 px snaps exactly onto the target and
goes idle. -/
theorem tickTrain_on_segment_witness :
    (trainNearArrival.status = .moving ∧
      trainNearArrival.target_station_id = some 2 ∧
      seedDB.stations.find? (fun s => s.id = 2) =
        some ⟨2, "Northfield Terminal", 650, 300⟩ ∧
      ((0 : ℚ) ≤ 1 / 5 ∧
        (1 / 5 : ℚ) ^ 2 =
          ((650 : ℚ) - trainNearArrival.x) ^ 2 +
            ((300 : ℚ) - trainNearArrival.y) ^ 2) ∧
      (0 : ℚ) ≤ trainNearArrival.speed_kmh) ∧
    ((∃ c : ℚ, 0 ≤ c ∧ c ≤ 1 ∧
      (tickTrain seedDB.stations trainNearArrival (1 / 5)).x =
        trainNearArrival.x + c * ((650 : ℚ) - trainNearArrival.x) ∧
      (tickTrain seedDB.stations trainNearArrival (1 / 5)).y =
        trainNearArrival.y + c * ((300 : ℚ) - trainNearArrival.y)) ∧
    ((1 / 5 : ℚ) ≤ pixelsPerTick trainNearArrival.speed_kmh →
      (tickTrain seedDB.stations trainNearArrival (1 / 5)).x = 650 ∧
      (tickTrain seedDB.stations trainNearArrival (1 / 5)).y = 300 ∧
      (tickTrain seedDB.stations trainNearArrival (1 / 5)).status = .idle ∧
      (tickTrain seedDB.stations trainNearArrival (1 / 5)).current_station_id =
        some 2 ∧
      (tickTrain seedDB.stations trainNearArrival (1 / 5)).target_station_id =
        none)) :=
  ⟨⟨rfl, rfl, by decide, ⟨by norm_num, by norm_num [trainNearArrival]⟩, by norm_num [trainNearArrival]⟩,
   tickTrain_on_segment seedDB.stations trainNearArrival (1 / 5) 2
     ⟨2, "Northfield Terminal", 650, 300⟩ rfl rfl (by decide)
     ⟨by norm_num, by norm_num [trainNearArrival]⟩ (by norm_num [trainNearArrival])⟩

/-- C7: `dispatch(moverId, targetNodeId)` fails exactly when the mover is
unknown, the target node is unknown, or the target equals the mover's
current node; and on any such failure the store is unchanged. -/
theorem dispatch_validation (db : DB) (trainId targetStationId : Nat)
    (dist : ℚ) (now : Int) :
    ((dispatch db trainId targetStationId dist now).2.isErr = true ↔
      db.getTrain trainId = none ∨ db.getStation targetStationId = none ∨
        ∃ t, db.getTrain trainId = some t ∧
          t.current_station_id = some targetStationId) ∧
    ((dispatch db trainId targetStationId dist now).2.isErr = true →
      (dispatch db trainId targetStationId dist now).1 = db) := by
  unfold dispatch
  rcases hT : db.getTrain trainId with _ | train
  · simp [DispatchResult.isErr]
  · rcases hS : db.getStation targetStationId with _ | st
    · simp [DispatchResult.isErr]
    · by_cases he : train.current_station_id = some targetStationId <;>
        simp [he, DispatchResult.isErr]

/-- Witness for C7: dispatching the seed train to its own current station
fails and leaves the store untouched. -/
theorem dispatch_validation_witness :
    (dispatch seedDB 1 1 0 0).2.isErr = true ∧
    (dispatch seedDB 1 1 0 0).1 = seedDB :=
  ⟨by decide, (dispatch_validation seedDB 1 1 0 0).2 (by decide)⟩

/-- C8 counterexample: on the seed store (stations 600 px = 150 km apart,
train at station 1 with speed 80 km/h), dispatching to station 2 reports
distance 150 km but ETA 113 minutes — `Math.round(150 / 80 * 60) =
Math.round(112.5) = 113`, not the claimed 112.  (600 is the exact
Euclidean distance: `600² = (650 − 50)² + (300 − 300)²`.) -/
theorem dispatch_eta_cex :
    (dispatch seedDB 1 2 600 0).2 = .ok 150 113 ∧
    ((0 : ℚ) ≤ 600 ∧
      (600 : ℚ) ^ 2 = ((650 : ℚ) - 50) ^ 2 + ((300 : ℚ) - 300) ^ 2) ∧
    (113 : Int) ≠ 112 := by
  refine ⟨?_, ⟨by norm_num, by norm_num⟩, by decide⟩
  simp [dispatch, DB.getTrain, DB.getStation, seedDB, jsRound]
  norm_num

/-- C8 (amended): for a known mover and target with the target distinct
from the current station, Euclidean distance 600 px and mover speed
80 km/h, dispatch succeeds and reports distance 150.0 km and ETA 113
minutes — the ETA is straight-line distance over speed times 60, rounded
half-up by JS `Math.round` (150/80×60 = 112.5 rounds to 113). -/
theorem dispatch_eta_amended (db : DB) (trainId targetStationId : Nat)
    (now : Int) (train : Train) (target : Station) (dist : ℚ)
    (hT : db.getTrain trainId = some train)
    (hS : db.getStation targetStationId = some target)
    (hne : ¬ train.current_station_id = some targetStationId)
    (hdist : 0 ≤ dist ∧
      dist ^ 2 = (target.x - train.x) ^ 2 + (target.y - train.y) ^ 2)
    (h600 : dist = 600) (hsp : train.speed_kmh = 80) :
    (dispatch db trainId targetStationId dist now).2 =
      .ok 150 (jsRound (150 / 80 * 60)) ∧
    jsRound (150 / 80 * 60) = 113 := by
  constructor
  · unfold dispatch
    rcases hT' : db.getTrain trainId with _ | train'
    · rw [hT'] at hT; exact Option.noConfusion hT
    · rw [hT'] at hT
      obtain rfl : train' = train := Option.some.inj hT
      rcases hS' : db.getStation targetStationId with _ | target'
      · rw [hS'] at hS; exact Option.noConfusion hS
      · simp only [if_neg hne, h600, hsp]
        norm_num
  · show ⌊(150 / 80 * 60 : ℚ) + 1 / 2⌋ = 113
    norm_num

/-- Witness for the amended C8, at the seed scenario (train at
station 1, speed 80 km/h, target station 2 at 600 px = 150 km). -/
theorem dispatch_eta_amended_witness :
    (seedDB.getTrain 1 =
        some ⟨1, "Express-01", some 1, none, 50, 300, 80, none, .idle⟩ ∧
      seedDB.getStation 2 = some ⟨2, "Northfield Terminal", 650, 300⟩ ∧
      ¬ (some 1 : Option Nat) = some 2 ∧
      ((0 : ℚ) ≤ 600 ∧
        (600 : ℚ) ^ 2 = ((650 : ℚ) - 50) ^ 2 + ((300 : ℚ) - 300) ^ 2)) ∧
    ((dispatch seedDB 1 2 600 0).2 = .ok 150 (jsRound (150 / 80 * 60)) ∧
      jsRound (150 / 80 * 60) = 113) :=
  ⟨⟨by decide, by decide, by decide, by norm_num, by norm_num⟩,
   dispatch_eta_amended seedDB 1 2 0
     ⟨1, "Express-01", some 1, none, 50, 300, 80, none, .idle⟩
     ⟨2, "Northfield Terminal", 650, 300⟩ 600
     (by decide) (by decide) (by decide)
     ⟨by norm_num, by norm_num⟩ rfl rfl⟩

/-- Updating a train through `updateTrain` with an id-preserving field
change rewrites exactly the train that `getTrain` returns. -/
theorem DB.getTrain_updateTrain (db : DB) (id : Nat) (f : Train → Train)
    (hf : ∀ t, (f t).id = t.id) :
    (db.updateTrain id f).getTrain id = (db.getTrain id).map f := by
  obtain ⟨sts, trs, trks, evs, nsid, ntid⟩ := db
  simp only [DB.updateTrain, DB.getTrain]
  induction trs with
  | nil => rfl
  | cons t ts ih =>
      by_cases h : t.id = id
      · simp [List.find?_cons, h, hf]
      · simp [List.find?_cons, h, -List.find?_map]
        exact ih

/-- C9 counterexample: on the three-station store, the seed train is
dispatched to station 2 (status becomes `moving`), and a second dispatch
to station 3 nevertheless succeeds, retargeting the still-moving mover —
a `moving → moving` transition that the claimed state machine excludes.
(600 and 500 are the exact distances: `600² = (650−50)² + (300−300)²`,
`500² = (350−50)² + (700−300)²`.) -/
theorem dispatch_retarget_moving_cex :
    (((dispatch dbThree 1 2 600 0).1.getTrain 1).map Train.status =
      some .moving) ∧
    ((dispatch (dispatch dbThree 1 2 600 0).1 1 3 500 7).2.isErr = false) ∧
    (((dispatch (dispatch dbThree 1 2 600 0).1 1 3 500 7).1.getTrain 1).map
        Train.target_station_id = some (some 3)) ∧
    (((dispatch (dispatch dbThree 1 2 600 0).1 1 3 500 7).1.getTrain 1).map
        Train.status = some .moving) ∧
    ((0 : ℚ) ≤ 600 ∧
      (600 : ℚ) ^ 2 = ((650 : ℚ) - 50) ^ 2 + ((300 : ℚ) - 300) ^ 2) ∧
    ((0 : ℚ) ≤ 500 ∧
      (500 : ℚ) ^ 2 = ((350 : ℚ) - 50) ^ 2 + ((700 : ℚ) - 300) ^ 2) := by
  refine ⟨by decide, by decide, by decide, by decide,
    ⟨by norm_num, by norm_num⟩, ⟨by norm_num, by norm_num⟩⟩

/-- C9 (amended): a successful dispatch always sets the mover's status to
`moving`, its target to the requested station and its departure time to
now — with no requirement that the mover was idle, so a mover whose
status is `moving` can be retargeted (`moving → moving`); and a Movement
Engine tick either leaves the mover's status, target and current node
unchanged or performs the arrival transition `moving → idle` clearing the
target.  Apart from the retargeting case these are exactly the claimed
transitions `idle → moving` (dispatch) and `moving → idle` (arrival). -/
theorem mover_transitions (db : DB) (trainId targetStationId : Nat)
    (dist dist' : ℚ) (now : Int) (stations : List Station) (train : Train) :
    ((dispatch db trainId targetStationId dist now).2.isErr = false →
      ∀ t, db.getTrain trainId = some t →
        (dispatch db trainId targetStationId dist now).1.getTrain trainId =
          some { t with target_station_id := some targetStationId,
                        departure_time := some now, status := .moving }) ∧
    ((tickTrain stations train dist').status = train.status ∧
      (tickTrain stations train dist').target_station_id =
        train.target_station_id ∧
      (tickTrain stations train dist').current_station_id =
        train.current_station_id ∨
     train.status = .moving ∧ (tickTrain stations train dist').status = .idle ∧
      (tickTrain stations train dist').target_station_id = none) := by
  constructor
  · unfold dispatch
    rcases hT : db.getTrain trainId with _ | train'
    · simp [DispatchResult.isErr]
    · rcases hS : db.getStation targetStationId with _ | st
      · simp [DispatchResult.isErr]
      · by_cases he : train'.current_station_id = some targetStationId
        · simp [he, DispatchResult.isErr]
        · simp only [he, if_false, DispatchResult.isErr]
          intro h1 t ht
          obtain rfl : train' = t := Option.some.inj ht
          rw [DB.getTrain_addEvent]
          rw [DB.getTrain_updateTrain db trainId
            (fun u => { u with target_station_id := some targetStationId,
                               departure_time := some now, status := .moving })
            (fun u => rfl), hT]
          rfl
  · unfold tickTrain
    split
    · rename_i tid heq1 heq2
      split
      · exact Or.inl ⟨rfl, rfl, rfl⟩
      · rename_i target hfind
        split_ifs with harr
        · exact Or.inr ⟨heq1, rfl, rfl⟩
        · exact Or.inl ⟨rfl, rfl, rfl⟩
    · exact Or.inl ⟨rfl, rfl, rfl⟩

/-- Witness for the amended C9: the concrete dispatch on the
three-station store sets the seed train moving toward station 2, and the
concrete near-arrival tick takes the `moving → idle` branch. -/
theorem mover_transitions_witness :
    ((dispatch dbThree 1 2 600 0).2.isErr = false ∧
      dbThree.getTrain 1 =
        some ⟨1, "Express-01", some 1, none, 50, 300, 80, none, .idle⟩ ∧
      (dispatch dbThree 1 2 600 0).1.getTrain 1 =
        some ⟨1, "Express-01", some 1, some 2, 50, 300, 80, some 0,
          .moving⟩) ∧
    ((tickTrain seedDB.stations trainNearArrival (1 / 5)).status =
        trainNearArrival.status ∧
      (tickTrain seedDB.stations trainNearArrival (1 / 5)).target_station_id =
        trainNearArrival.target_station_id ∧
      (tickTrain seedDB.stations trainNearArrival (1 / 5)).current_station_id =
        trainNearArrival.current_station_id ∨
     trainNearArrival.status = .moving ∧
      (tickTrain seedDB.stations trainNearArrival (1 / 5)).status = .idle ∧
      (tickTrain seedDB.stations trainNearArrival (1 / 5)).target_station_id =
        none) :=
  ⟨⟨by decide, by decide,
    (mover_transitions dbThree 1 2 600 (1 / 5) 0 seedDB.stations
        trainNearArrival).1 (by decide)
      ⟨1, "Express-01", some 1, none, 50, 300, 80, none, .idle⟩ (by decide)⟩,
   (mover_transitions dbThree 1 2 600 (1 / 5) 0 seedDB.stations
      trainNearArrival).2⟩

/-- In a list of stations with pairwise-distinct ids, looking up the id
of the element at position `i` finds exactly that element. -/
theorem find?_id_of_get? (l : List Station)
    (hnd : l.Pairwise (fun a b => a.id ≠ b.id)) :
    ∀ (i : Nat) (st : Station), l.get? i = some st →
      l.find? (fun s => s.id = st.id) = some st := by
  induction l with
  | nil => intro i st h; simp at h
  | cons a as ih =>
      intro i st h
      rcases i with _ | i
      · simp only [List.get?_cons_zero, Option.some.injEq] at h
        subst h
        simp [List.find?_cons]
      · simp only [List.get?_cons_succ] at h
        have hmem : st ∈ as := List.get?_mem h
        have hne : a.id ≠ st.id := (List.pairwise_cons.mp hnd).1 st hmem
        rw [List.find?_cons]
        simp only [hne, decide_eq_false hne]
        exact ih (List.pairwise_cons.mp hnd).2 i st h

/-- A well-formed store has pairwise-distinct station ids. -/
theorem WF_pairwise_ne (db : DB) (hwf : db.WF) :
    db.stations.Pairwise (fun a b => a.id ≠ b.id) := by
  haveI : IsTrans Station (fun a b => a.id < b.id) :=
    ⟨fun a b c hab hbc => Nat.lt_trans hab hbc⟩
  have h := List.chain'_iff_pairwise.mp hwf.1
  exact h.imp (fun hab => Nat.ne_of_lt hab)

/-- C10: `rebalance()` (`checkFleetBalance`) creates exactly one new
mover — placed at the randomly drawn existing node
`stations[randIdx]`, with status `idle` and speed `100 + speedRoll`
km/h, which lies in the configured range [100, 160) — when the node
count exceeds three times the mover count, and creates none (the store
is unchanged) otherwise. -/
theorem checkFleetBalance_spec (db : DB) (randIdx speedRoll : Nat)
    (hwf : db.WF) (hidx : randIdx < db.stations.length)
    (hroll : speedRoll < 60) :
    (db.stations.length > db.trains.length * 3 →
      ∃ st, db.stations.get? randIdx = some st ∧
        (checkFleetBalance randIdx speedRoll db).trains =
          db.trains ++
            [{ id := db.nextTrainId,
               name := "Express-" ++
                 (if db.trains.length + 1 < 10 then
                   "0" ++ toString (db.trains.length + 1)
                  else toString (db.trains.length + 1)),
               current_station_id := some st.id,
               target_station_id := none, x := st.x, y := st.y,
               speed_kmh := 100 + (speedRoll : ℚ), departure_time := none,
               status := .idle }] ∧
        (100 : ℚ) ≤ 100 + (speedRoll : ℚ) ∧
        100 + (speedRoll : ℚ) < 160) ∧
    (¬ db.stations.length > db.trains.length * 3 →
      checkFleetBalance randIdx speedRoll db = db) := by
  constructor
  · intro hgt
    have hget : db.stations.get? randIdx = some (db.stations.get ⟨randIdx, hidx⟩) :=
      List.get?_eq_get hidx
    set st := db.stations.get ⟨randIdx, hidx⟩ with hstdef
    have hfind : db.stations.find? (fun s => s.id = st.id) = some st :=
      find?_id_of_get? db.stations (WF_pairwise_ne db hwf) randIdx st hget
    refine ⟨st, hget, ?_, by
      have : (0 : ℚ) ≤ (speedRoll : ℚ) := Nat.cast_nonneg speedRoll
      linarith, ?_⟩
    · unfold checkFleetBalance
      rw [if_pos hgt, hget]
      simp only [DB.addTrain, DB.getStation, hfind, DB.trains_addEvent]
    · have : (speedRoll : ℚ) < 60 := by exact_mod_cast hroll
      linarith
  · intro hle
    unfold checkFleetBalance
    rw [if_neg hle]



/-- Witness for C10: on ten stations and three trains the balancer
appends exactly one idle train at the drawn station (index 4, station 5)
with speed 130; on nine stations and three trains it changes nothing. -/
theorem checkFleetBalance_spec_witness :
    (dbTenThree.WF ∧ 4 < dbTenThree.stations.length ∧ 30 < 60 ∧
      dbTenThree.stations.length > dbTenThree.trains.length * 3 ∧
      dbNineThree.WF ∧ 4 < dbNineThree.stations.length ∧
      ¬ dbNineThree.stations.length > dbNineThree.trains.length * 3) ∧
    (∃ st, dbTenThree.stations.get? 4 = some st ∧
      (checkFleetBalance 4 30 dbTenThree).trains =
        dbTenThree.trains ++
          [{ id := dbTenThree.nextTrainId,
             name := "Express-" ++
               (if dbTenThree.trains.length + 1 < 10 then
                 "0" ++ toString (dbTenThree.trains.length + 1)
                else toString (dbTenThree.trains.length + 1)),
             current_station_id := some st.id,
             target_station_id := none, x := st.x, y := st.y,
             speed_kmh := 100 + (30 : ℚ), departure_time := none,
             status := .idle }] ∧
      (100 : ℚ) ≤ 100 + (30 : ℚ) ∧ 100 + (30 : ℚ) < 160) ∧
    checkFleetBalance 4 30 dbNineThree = dbNineThree :=
  ⟨⟨⟨by simp [dbTenThree, List.chain'_cons], by decide⟩, by decide, by decide,
    by decide, ⟨by simp [dbNineThree, dbTenThree, List.chain'_cons], by decide⟩,
    by decide, by decide⟩,
   (checkFleetBalance_spec dbTenThree 4 30
     ⟨by simp [dbTenThree, List.chain'_cons], by decide⟩ (by decide)
     (by decide)).1 (by decide),
   (checkFleetBalance_spec dbNineThree 4 30
     ⟨by simp [dbNineThree, dbTenThree, List.chain'_cons], by decide⟩
     (by decide) (by decide)).2 (by decide)⟩

@[simp]
theorem DB.tracks_addTrain (db : DB) (n : String) (sid r : Nat) :
    ((db.addTrain n sid r).1).tracks = db.tracks := by
  unfold DB.addTrain
  rcases db.getStation sid with _ | st <;> rfl

/-- The Fleet Balancer never touches the tracks table. -/
theorem checkFleetBalance_tracks (r sp : Nat) (db : DB) :
    (checkFleetBalance r sp db).tracks = db.tracks := by
  unfold checkFleetBalance
  split
  · rcases db.stations.get? r with _ | st
    · rfl
    · simp
  · rfl

/-- If the first proposal is verified valid, the loop accepts it after
one propose and one verify call, having appended the THOUGHT event. -/
theorem proposeVerifyLoop_firstValid (propose : Nat → Except String Proposal)
    (verify : Nat → Except String Verification) (prop : Proposal)
    (fb : String) (hp : propose 0 = .ok prop)
    (hv : verify 0 = .ok ⟨true, fb⟩) (db : DB) :
    proposeVerifyLoop propose verify 0 3 db =
      .accepted prop
        (db.addEvent "AI_EXPANSION" ("[THOUGHT] " ++ prop.thoughtSignature))
        1 1 := by
  rw [proposeVerifyLoop, hp, hv]
  rfl


/-- When `connectToId` is NaN or matches no station of the post-commit
list `old ++ [new]`, the resolution falls back to the last pre-commit
station. -/
theorem resolveConnection_fallback (c : Option ℚ) (old : List Station)
    (new : Station) (hne : old ≠ [])
    (hmiss : ∀ q, c = some q → ∀ st ∈ old ++ [new], (st.id : ℚ) ≠ q) :
    resolveConnection c (old ++ [new]) = (old.getLast hne).id := by
  have hpos : 0 < old.length := List.length_pos.mpr hne
  have hlen : (old ++ [new]).length = old.length + 1 := by simp
  have hget : (old ++ [new]).get? ((old ++ [new]).length - 2) =
      some (old.getLast hne) := by
    rw [hlen]
    have h2 : old.length + 1 - 2 = old.length - 1 := by omega
    rw [h2, List.get?_append (by omega)]
    rw [List.get?_eq_get (by omega)]
    congr 1
    exact (List.getLast_eq_get old hne).symm
  have h2 : 2 ≤ (old ++ [new]).length := by omega
  unfold resolveConnection
  cases c with
  | none => simp only [ge_iff_le, if_pos h2, hget, Option.getD_some]
  | some q =>
      have hfn : (old ++ [new]).find? (fun st => (st.id : ℚ) = q) = none := by
        apply List.find?_eq_none.mpr
        intro st hst
        simpa using hmiss q rfl st hst
      simp only [hfn, ge_iff_le, if_pos h2, hget, Option.getD_some]

/-- The resolved connection id always names a station of the list the
code validated against. -/
theorem resolveConnection_mem (c : Option ℚ) (l : List Station)
    (hne : l ≠ []) :
    resolveConnection c l ∈ l.map Station.id := by
  have hpos : 0 < l.length := List.length_pos.mpr hne
  have hfall : (if l.length ≥ 2 then
      ((l.get? (l.length - 2)).getD ⟨0, "", 0, 0⟩).id
     else ((l.get? 0).getD ⟨0, "", 0, 0⟩).id) ∈ l.map Station.id := by
    split_ifs with h
    · rcases hg : l.get? (l.length - 2) with _ | st
      · exact absurd (List.get?_eq_none.mp hg) (by omega)
      · simpa [hg] using List.mem_map_of_mem Station.id (List.get?_mem hg)
    · rcases hg : l.get? 0 with _ | st
      · exact absurd (List.get?_eq_none.mp hg) (by omega)
      · simpa [hg] using List.mem_map_of_mem Station.id (List.get?_mem hg)
  unfold resolveConnection
  cases c with
  | none => exact hfall
  | some q =>
      rcases hf : l.find? (fun st => (st.id : ℚ) = q) with _ | st
      · simpa only [hf] using hfall
      · simp only [hf]
        exact List.mem_map_of_mem Station.id (List.mem_of_find?_eq_some hf)

/-- As long as `connectToId` is not the id the new station received, the
resolved connection id names a PRE-commit station. -/
theorem resolveConnection_old_mem (c : Option ℚ) (old : List Station)
    (new : Station) (hne : old ≠ []) (hq : c ≠ some ((new.id : ℚ))) :
    resolveConnection c (old ++ [new]) ∈ old.map Station.id := by
  have hpos : 0 < old.length := List.length_pos.mpr hne
  have hlen : (old ++ [new]).length = old.length + 1 := by simp
  have hfall : (if (old ++ [new]).length ≥ 2 then
      (((old ++ [new]).get? ((old ++ [new]).length - 2)).getD ⟨0, "", 0, 0⟩).id
     else (((old ++ [new]).get? 0).getD ⟨0, "", 0, 0⟩).id) ∈
      old.map Station.id := by
    rw [if_pos (by omega), hlen]
    have h2 : old.length + 1 - 2 = old.length - 1 := by omega
    rw [h2, List.get?_append (by omega)]
    rcases hg : old.get? (old.length - 1) with _ | st
    · exact absurd (List.get?_eq_none.mp hg) (by omega)
    · simpa [hg] using List.mem_map_of_mem Station.id (List.get?_mem hg)
  unfold resolveConnection
  cases c with
  | none => exact hfall
  | some q =>
      rcases hf : (old ++ [new]).find? (fun st => (st.id : ℚ) = q) with _ | st
      · simpa only [hf] using hfall
      · simp only [hf]
        have hpq : (st.id : ℚ) = q := by
          have := List.find?_some hf
          simpa using this
        rcases List.mem_append.mp (List.mem_of_find?_eq_some hf) with h | h
        · exact List.mem_map_of_mem Station.id h
        · exfalso
          apply hq
          simp only [List.mem_singleton] at h
          subst h
          rw [hpq]

@[simp]
theorem DB.stations_addStation (db : DB) (n : String) (x y : ℚ) :
    ((db.addStation n x y).1).stations =
      db.stations ++ [⟨db.nextStationId, n, x, y⟩] := rfl

@[simp]
theorem DB.snd_addStation (db : DB) (n : String) (x y : ℚ) :
    (db.addStation n x y).2 = db.nextStationId := rfl

@[simp]
theorem DB.tracks_addStation (db : DB) (n : String) (x y : ℚ) :
    ((db.addStation n x y).1).tracks = db.tracks := rfl

@[simp]
theorem DB.nextStationId_addStation (db : DB) (n : String) (x y : ℚ) :
    ((db.addStation n x y).1).nextStationId = db.nextStationId + 1 := rfl

@[simp]
theorem DB.tracks_addTrack (db : DB) (a b : Nat) :
    (db.addTrack a b).tracks = db.tracks ++ [⟨a, b⟩] := rfl

@[simp]
theorem DB.stations_addTrack (db : DB) (a b : Nat) :
    (db.addTrack a b).stations = db.stations := rfl

/-- C1 counterexample: pre-commit stations have ids [1, 2, 3]; the
Proposal Oracle's `connectToId` is non-numeric (`Number("abc")` is NaN,
modelled as `none`), the candidate is verified valid, and the EXECUTE
phase commits edge (3, 4): the new node 4 is connected to node 3 — the
MOST-recently-created pre-commit node — not to node 2 as claimed. -/
theorem expandNetwork_fallback_cex :
    dbThree.stations.map Station.id = [1, 2, 3] ∧
    propNaN.connectToId = none ∧
    (expandNetwork (.error "offline") (fun _ => .ok propNaN) alwaysValid
        0 5 sCached dbThree 60000).db.tracks = [⟨1, 2⟩, ⟨3, 4⟩] ∧
    (⟨3, 4⟩ : Track) ≠ (⟨2, 4⟩ : Track) := by
  refine ⟨by decide, rfl, by decide, by decide⟩

/-- C1 (amended): when the Proposal Oracle's `connectToId` is missing,
non-numeric, or matches no station of the post-commit list (neither a
pre-existing station nor the new node's own id), the EXECUTE phase of a
non-throttled cycle whose first candidate is verified valid commits the
new node with the next autoincrement id and connects it to the
MOST-recently-created node that existed before the commit (which is the
sole node when exactly one existed); in particular, `connectToId="abc"`
against existing nodes [1, 2, 3] commits an edge connecting the new node
to node 3, not node 2. -/
theorem expandNetwork_fallbackConnection (planOracle : Except String Plan)
    (propose : Nat → Except String Proposal)
    (verify : Nat → Except String Verification)
    (randIdx speedRoll : Nat) (s : AgentState) (db : DB) (now : Int)
    (hthr : ¬ now - s.lastWorkerTime < 60000)
    (prop : Proposal) (fb : String)
    (hp : propose 0 = .ok prop) (hv : verify 0 = .ok ⟨true, fb⟩)
    (hne : db.stations ≠ [])
    (hmiss : ∀ q, prop.connectToId = some q →
      (∀ st ∈ db.stations, (st.id : ℚ) ≠ q) ∧ (db.nextStationId : ℚ) ≠ q) :
    (expandNetwork planOracle propose verify randIdx speedRoll
        s db now).result.success = true ∧
    (expandNetwork planOracle propose verify randIdx speedRoll
        s db now).result.stationId = some db.nextStationId ∧
    (expandNetwork planOracle propose verify randIdx speedRoll
        s db now).db.tracks =
      db.tracks ++ [⟨(db.stations.getLast hne).id, db.nextStationId⟩] := by
  obtain ⟨hs, ht, htr, hnid⟩ :=
    getDailyBriefing_db planOracle { s with lastWorkerTime := now } db now
  unfold expandNetwork
  rw [if_neg hthr]
  have hloop := proposeVerifyLoop_firstValid propose verify prop fb hp hv
    ((getDailyBriefing planOracle { s with lastWorkerTime := now } db now).2.2.1)
  simp only [hloop, DB.stations_addEvent, DB.tracks_addEvent,
    DB.nextStationId_addEvent, DB.stations_addStation, DB.snd_addStation,
    DB.tracks_addStation, DB.tracks_addTrack, checkFleetBalance_tracks, hs,
    ht, hnid]
  refine ⟨by trivial, by trivial, ?_⟩
  rw [resolveConnection_fallback prop.connectToId db.stations
    ⟨db.nextStationId, prop.name, prop.x, prop.y⟩ hne ?_]
  intro q hq st hst
  rcases List.mem_append.mp hst with h | h
  · exact (hmiss q hq).1 st h
  · simp only [List.mem_singleton] at h
    subst h
    exact (hmiss q hq).2

/-- Witness for the amended C1: the concrete [1,2,3] scenario with a
NaN `connectToId` commits node 4 connected to node 3. -/
theorem expandNetwork_fallbackConnection_witness :
    (¬ (60000 : Int) - sCached.lastWorkerTime < 60000 ∧
      dbThree.stations ≠ [] ∧ propNaN.connectToId = none) ∧
    ((expandNetwork (.error "offline") (fun _ => .ok propNaN) alwaysValid
        0 5 sCached dbThree 60000).result.success = true ∧
      (expandNetwork (.error "offline") (fun _ => .ok propNaN) alwaysValid
        0 5 sCached dbThree 60000).result.stationId =
          some dbThree.nextStationId ∧
      (expandNetwork (.error "offline") (fun _ => .ok propNaN) alwaysValid
        0 5 sCached dbThree 60000).db.tracks =
        dbThree.tracks ++
          [⟨(dbThree.stations.getLast (by decide)).id,
            dbThree.nextStationId⟩]) :=
  ⟨⟨by decide, by decide, rfl⟩,
   expandNetwork_fallbackConnection (.error "offline")
     (fun _ => .ok propNaN) alwaysValid 0 5 sCached dbThree 60000
     (by decide) propNaN "pass" rfl rfl (by decide)
     (fun q hq => Option.noConfusion hq)⟩

/-- C5 counterexample: on the seed store (stations [1, 2]) an untrusted
proposal carrying `connectToId = 3` — the very id the new station is
about to receive — passes the EXECUTE-phase validity check (the check
searches the station list re-read AFTER the insert) and commits the
self-loop edge (3, 3): an edge whose two endpoints are NOT distinct. -/
theorem expandNetwork_selfLoop_cex :
    seedDB.stations.map Station.id = [1, 2] ∧
    (expandNetwork (.error "offline")
        (fun _ => .ok ⟨"Loopville", 10, 20, some 3, "r"⟩) alwaysValid
        0 5 sCached seedDB 60000).db.tracks = [⟨1, 2⟩, ⟨3, 3⟩] ∧
    (⟨3, 3⟩ : Track).station_a_id = (⟨3, 3⟩ : Track).station_b_id := by
  refine ⟨by decide, by decide, rfl⟩

/-- C5 (amended): every edge committed by the EXECUTE phase joins two
stations that exist after the commit (the new node and a station of the
post-commit list); whenever the oracle's `connectToId` differs from the
id the new node receives — in particular in every fallback case — the
two endpoints are distinct; but a `connectToId` equal to the new node's
id commits a self-loop, so distinctness does not hold for arbitrary
untrusted oracle output. -/
theorem expandNetwork_edge_endpoints (planOracle : Except String Plan)
    (propose : Nat → Except String Proposal)
    (verify : Nat → Except String Verification)
    (randIdx speedRoll : Nat) (s : AgentState) (db : DB) (now : Int)
    (hthr : ¬ now - s.lastWorkerTime < 60000)
    (prop : Proposal) (fb : String)
    (hp : propose 0 = .ok prop) (hv : verify 0 = .ok ⟨true, fb⟩)
    (hwf : db.WF) (hne : db.stations ≠ []) :
    ∃ cid : Nat,
      (expandNetwork planOracle propose verify randIdx speedRoll
          s db now).db.tracks =
        db.tracks ++ [⟨cid, db.nextStationId⟩] ∧
      cid ∈ db.stations.map Station.id ++ [db.nextStationId] ∧
      (prop.connectToId ≠ some ((db.nextStationId : ℚ)) →
        cid ∈ db.stations.map Station.id ∧ cid ≠ db.nextStationId) := by
  obtain ⟨hs, ht, htr, hnid⟩ :=
    getDailyBriefing_db planOracle { s with lastWorkerTime := now } db now
  unfold expandNetwork
  rw [if_neg hthr]
  have hloop := proposeVerifyLoop_firstValid propose verify prop fb hp hv
    ((getDailyBriefing planOracle { s with lastWorkerTime := now } db now).2.2.1)
  simp only [hloop, DB.stations_addEvent, DB.tracks_addEvent,
    DB.nextStationId_addEvent, DB.stations_addStation, DB.snd_addStation,
    DB.tracks_addStation, DB.tracks_addTrack, checkFleetBalance_tracks, hs,
    ht, hnid]
  refine ⟨resolveConnection prop.connectToId
    (db.stations ++ [⟨db.nextStationId, prop.name, prop.x, prop.y⟩]),
    by trivial, ?_, ?_⟩
  · have hmem := resolveConnection_mem prop.connectToId
      (db.stations ++ [⟨db.nextStationId, prop.name, prop.x, prop.y⟩])
      (by simp)
    simpa using hmem
  · intro hq
    have hmem := resolveConnection_old_mem prop.connectToId db.stations
      ⟨db.nextStationId, prop.name, prop.x, prop.y⟩ hne hq
    refine ⟨hmem, ?_⟩
    obtain ⟨st, hst, hid⟩ := List.mem_map.mp hmem
    rw [← hid]
    exact Nat.ne_of_lt (hwf.2 st hst)

/-- Witness for the amended C5: the NaN-`connectToId` run on the
three-station store commits an edge with distinct existing endpoints. -/
theorem expandNetwork_edge_endpoints_witness :
    (¬ (60000 : Int) - sCached.lastWorkerTime < 60000 ∧
      dbThree.WF ∧ dbThree.stations ≠ []) ∧
    (∃ cid : Nat,
      (expandNetwork (.error "offline") (fun _ => .ok propNaN) alwaysValid
          0 5 sCached dbThree 60000).db.tracks =
        dbThree.tracks ++ [⟨cid, dbThree.nextStationId⟩] ∧
      cid ∈ dbThree.stations.map Station.id ++ [dbThree.nextStationId] ∧
      (propNaN.connectToId ≠ some ((dbThree.nextStationId : ℚ)) →
        cid ∈ dbThree.stations.map Station.id ∧
          cid ≠ dbThree.nextStationId)) :=
  ⟨⟨by decide, ⟨by simp [dbThree, seedDB, DB.addStation, List.chain'_cons],
      by decide⟩, by decide⟩,
   expandNetwork_edge_endpoints (.error "offline") (fun _ => .ok propNaN)
     alwaysValid 0 5 sCached dbThree 60000 (by decide) propNaN "pass"
     rfl rfl
     ⟨by simp [dbThree, seedDB, DB.addStation, List.chain'_cons], by decide⟩
     (by decide)⟩

/-- C6 counterexample: a throttled invocation and an invocation whose
Proposal Oracle throws with the throttle message produce IDENTICAL
result values `{ success: false, error: msg }` — the first made no
oracle call, the second made one — so the returned outcome does not let
the caller distinguish throttled from oracle-error by tag: only the
free-text message differs between failure kinds, and it need not. -/
theorem expandNetwork_indistinguishable_cex :
    (expandNetwork (.error "offline") (fun _ => .ok propNaN) alwaysValid
        0 0 sCached seedDB 59000).result =
      (expandNetwork (.error "offline")
        (fun _ => .error "Marathon Agent is cooling down between cycles.")
        alwaysValid 0 0 sCached seedDB 60000).result ∧
    (expandNetwork (.error "offline") (fun _ => .ok propNaN) alwaysValid
        0 0 sCached seedDB 59000).proposeCalls = 0 ∧
    (expandNetwork (.error "offline")
        (fun _ => .error "Marathon Agent is cooling down between cycles.")
        alwaysValid 0 0 sCached seedDB 60000).proposeCalls = 1 := by
  refine ⟨by decide, rfl, rfl⟩

/-- C6 (amended): every outcome of `expandNetwork` is the discriminated
pair `success : Bool` with payload: a success carries the new node
identifier and the echoed candidate and no error; every failure —
throttled, consensus-failed, or oracle-error alike — carries `success:
false` and a message, with no further tag, so the three failure kinds
can only be told apart by their message text. -/
theorem expandNetwork_result_shape (planOracle : Except String Plan)
    (propose : Nat → Except String Proposal)
    (verify : Nat → Except String Verification)
    (randIdx speedRoll : Nat) (s : AgentState) (db : DB) (now : Int) :
    ((expandNetwork planOracle propose verify randIdx speedRoll
        s db now).result.success = true →
      (expandNetwork planOracle propose verify randIdx speedRoll
        s db now).result.error = none ∧
      (expandNetwork planOracle propose verify randIdx speedRoll
        s db now).result.stationId.isSome = true ∧
      (expandNetwork planOracle propose verify randIdx speedRoll
        s db now).result.proposal.isSome = true) ∧
    ((expandNetwork planOracle propose verify randIdx speedRoll
        s db now).result.success = false →
      ∃ m, (expandNetwork planOracle propose verify randIdx speedRoll
          s db now).result.error = some m ∧
        (expandNetwork planOracle propose verify randIdx speedRoll
          s db now).result.stationId = none ∧
        (expandNetwork planOracle propose verify randIdx speedRoll
          s db now).result.proposal = none) := by
  by_cases h : now - s.lastWorkerTime < 60000
  · unfold expandNetwork
    rw [if_pos h]
    simp [failResult]
  · unfold expandNetwork
    rw [if_neg h]
    rcases hloop : proposeVerifyLoop propose verify 0 3
        ((getDailyBriefing planOracle { s with lastWorkerTime := now }
          db now).2.2.1) with
      ⟨p, db2, pc, vc⟩ | ⟨m, db2, pc, vc⟩ | ⟨db2, pc, vc⟩ <;>
    simp only [hloop] <;> simp [failResult]

/-- Witness for the amended C6: a successful cycle carries the station
id and echoed candidate; an all-invalid cycle carries a message. -/
theorem expandNetwork_result_shape_witness :
    ((expandNetwork (.error "offline") (fun _ => .ok propNaN) alwaysValid
        0 5 sCached seedDB 60000).result.success = true ∧
      ((expandNetwork (.error "offline") (fun _ => .ok propNaN) alwaysValid
          0 5 sCached seedDB 60000).result.error = none ∧
        (expandNetwork (.error "offline") (fun _ => .ok propNaN) alwaysValid
          0 5 sCached seedDB 60000).result.stationId.isSome = true ∧
        (expandNetwork (.error "offline") (fun _ => .ok propNaN) alwaysValid
          0 5 sCached seedDB 60000).result.proposal.isSome = true)) ∧
    ((expandNetwork (.error "offline") (fun _ => .ok propNaN)
        (fun _ => .ok ⟨false, "rejected"⟩) 0 5 sCached seedDB
        60000).result.success = false ∧
      ∃ m, (expandNetwork (.error "offline") (fun _ => .ok propNaN)
          (fun _ => .ok ⟨false, "rejected"⟩) 0 5 sCached seedDB
          60000).result.error = some m ∧
        (expandNetwork (.error "offline") (fun _ => .ok propNaN)
          (fun _ => .ok ⟨false, "rejected"⟩) 0 5 sCached seedDB
          60000).result.stationId = none ∧
        (expandNetwork (.error "offline") (fun _ => .ok propNaN)
          (fun _ => .ok ⟨false, "rejected"⟩) 0 5 sCached seedDB
          60000).result.proposal = none) :=
  ⟨⟨by decide,
    (expandNetwork_result_shape (.error "offline") (fun _ => .ok propNaN)
      alwaysValid 0 5 sCached seedDB 60000).1 (by decide)⟩,
   ⟨by decide,
    (expandNetwork_result_shape (.error "offline") (fun _ => .ok propNaN)
      (fun _ => .ok ⟨false, "rejected"⟩) 0 5 sCached seedDB 60000).2
      (by decide)⟩⟩
